import Mathlib

/-!
Verification development for a set of Twilio Flex serverless functions:
`adjustChatCapacity`, `saveContactToSaferNet`,
`sendErrorMessageForUnsupportedMedia`, and the chat-transfer helper
`hasTaskControl`.

The TypeScript handlers are shallowly embedded as pure Lean functions.
External collaborators (the Twilio REST client, the SaferNet HTTP endpoint,
token validation, the translations fetch) are passed in as explicit oracle
functions or result values inside an environment structure, and the side
effects the handlers perform on them (channel capacity updates, conversation
messages sent, HTTP requests issued) are made observable as explicit traces
in the return values.
-/

namespace ServerlessAI

/-- A `{ status, message }` pair as returned by `adjustChatCapacity`. -/
structure ApiResult where
  status : Nat
  message : String
deriving Repr, DecidableEq

/-! ## adjustChatCapacity (src/functions/adjustChatCapacity.ts) -/

/-- The fields of a TaskRouter `WorkerChannelInstance` that
`adjustChatCapacity.ts` reads. Capacities are JS numbers holding integers. -/
structure WorkerChannel where
  configuredCapacity : Int
  availableCapacityPercentage : Int
  taskChannelUniqueName : String
deriving Repr, DecidableEq

/-- The `adjustment` union type of `Body.adjustment` (the handler separately
checks for `undefined`, so the embedded `adjustChatCapacity` receives one of
exactly these four values). -/
inductive Adjustment
  | increase
  | decrease
  | increaseUntilCapacityAvailable
  | setTo1
deriving Repr, DecidableEq

/-- Result of one `increaseChatCapacity` call: the `{ result, updatedChannel }`
object of the source, plus the trace of capacities passed to
`channel.update({ capacity })` during the call (empty when no update is
performed). -/
structure IncreaseOutcome where
  result : ApiResult
  updatedChannel : WorkerChannel
  updateCalls : List Int
deriving Repr

/-- Environment of `adjustChatCapacity`: the results of its Twilio API
lookups and an oracle for `channel.update({ capacity })`. `workerFound`
models the `!worker` check on the fetched worker; `maxMessageCapacity` is
`parseInt(attributes.maxMessageCapacity, 10)` with `none` standing for `NaN`
(so the JS-falsy values of that number are `none` and `some 0`). -/
structure AdjustEnv where
  workerFound : Bool
  maxMessageCapacity : Option Int
  channels : List WorkerChannel
  update : WorkerChannel → Int → WorkerChannel

/-- `increaseChatCapacity(channel, maxMessageCapacity)` from the source:
412 when the channel still has available capacity, 412 when configured
capacity has reached the max, otherwise update capacity to
`configuredCapacity + 1` and return 200. -/
def increaseChatCapacity (update : WorkerChannel → Int → WorkerChannel)
    (channel : WorkerChannel) (maxMessageCapacity : Int) : IncreaseOutcome :=
  if channel.availableCapacityPercentage > 0 then
    { result := { status := 412, message := "Still have available capacity, no need to increase." }
      updatedChannel := channel
      updateCalls := [] }
  else if ¬ (channel.configuredCapacity < maxMessageCapacity) then
    { result := { status := 412, message := "Reached the max capacity." }
      updatedChannel := channel
      updateCalls := [] }
  else
    { result := { status := 200, message := "Successfully increased channel capacity" }
      updatedChannel := update channel (channel.configuredCapacity + 1)
      updateCalls := [channel.configuredCapacity + 1] }

/-- The `while (result.status === 200)` loop of the
`increaseUntilCapacityAvailable` branch, with explicit fuel: each iteration
runs `increaseChatCapacity` on the current channel, looping while the result
status is 200. Returns `none` when the fuel is exhausted before the loop
exits, otherwise the final result, the final channel, and the concatenated
trace of `channel.update` calls. -/
def increaseUntilLoop (update : WorkerChannel → Int → WorkerChannel)
    (maxMessageCapacity : Int) :
    Nat → WorkerChannel → Option (ApiResult × WorkerChannel × List Int)
  | 0, _ => none
  | Nat.succ fuel, channel =>
    let out := increaseChatCapacity update channel maxMessageCapacity
    if out.result.status = 200 then
      match increaseUntilLoop update maxMessageCapacity fuel out.updatedChannel with
      | none => none
      | some (res, fin, calls) => some (res, fin, out.updateCalls ++ calls)
    else
      some (out.result, out.updatedChannel, out.updateCalls)

/-- `adjustChatCapacity(context, body)` from the source, given the
environment of Twilio lookup results. Returns the `{ status, message }`
result together with the trace of `channel.update({ capacity })` calls, or
`none` when the `increaseUntilCapacityAvailable` loop exceeds `fuel`
iterations. -/
def adjustChatCapacity (env : AdjustEnv) (workerSid : String)
    (adjustment : Adjustment) (fuel : Nat) : Option (ApiResult × List Int) :=
  if ¬ env.workerFound then
    some ({ status := 404, message := "Could not find worker." }, [])
  else
    let maxFalsy := match env.maxMessageCapacity with
      | none => true
      | some m => m = 0
    if maxFalsy then
      some ({ status := 409,
              message := "Worker " ++ workerSid ++
                " does not have a \"maxMessageCapacity\" attribute, can't adjust capacity." }, [])
    else
      let maxMessageCapacity := env.maxMessageCapacity.getD 0
      match env.channels.find? (fun c => c.taskChannelUniqueName = "chat") with
      | none => some ({ status := 404, message := "Could not find chat channel." }, [])
      | some channel =>
        match adjustment with
        | Adjustment.increase =>
          let out := increaseChatCapacity env.update channel maxMessageCapacity
          some (out.result, out.updateCalls)
        | Adjustment.increaseUntilCapacityAvailable =>
          match increaseUntilLoop env.update maxMessageCapacity fuel channel with
          | none => none
          | some (_, finalChannel, calls) =>
            if finalChannel.configuredCapacity = maxMessageCapacity ∧
                finalChannel.availableCapacityPercentage = 0 then
              some ({ status := 412,
                      message := "Reached the max capacity with no available capacity." }, calls)
            else
              some ({ status := 200,
                      message := "Adjusted chat capacity until there is capacity available" }, calls)
        | Adjustment.decrease =>
          if channel.configuredCapacity - 1 ≥ 1 then
            some ({ status := 200, message := "Successfully decreased channel capacity" },
                  [channel.configuredCapacity - 1])
          else
            some ({ status := 200, message := "Successfully decreased channel capacity" }, [])
        | Adjustment.setTo1 =>
          if channel.configuredCapacity ≠ 1 then
            some ({ status := 200, message := "Successfully reset channel capacity to 1" },
                  [channel.configuredCapacity - 1])
          else
            some ({ status := 200, message := "Channel capacity already 1, no adjustment made." }, [])

/-- The request body of the `adjustChatCapacity` handler; both fields may be
`undefined`. -/
structure AdjustEvent where
  workerSid : Option String
  adjustment : Option Adjustment

/-- What the handler resolves: an `error400(field)` validation failure or a
`send(status)({ message, status })`. -/
inductive AdjustOutcome
  | resolvedError400 (field : String)
  | resolvedSend (status : Nat) (message : String)
deriving Repr, DecidableEq

/-- The exported `handler` of `adjustChatCapacity.ts` (inside the token
validator, which is an excluded external collaborator): resolves
`error400` for a missing `workerSid`, then for a missing `adjustment`, and
otherwise invokes `adjustChatCapacity`. The boolean records whether
`adjustChatCapacity` was invoked; every Twilio API call of this handler
happens inside `adjustChatCapacity`, so `false` means no Twilio API call was
made. -/
def adjustHandler (env : AdjustEnv) (fuel : Nat) (ev : AdjustEvent) :
    Option (AdjustOutcome × Bool) :=
  match ev.workerSid with
  | none => some (AdjustOutcome.resolvedError400 "workerSid", false)
  | some workerSid =>
    match ev.adjustment with
    | none => some (AdjustOutcome.resolvedError400 "adjustment", false)
    | some adjustment =>
      match adjustChatCapacity env workerSid adjustment fuel with
      | none => none
      | some (res, _) => some (AdjustOutcome.resolvedSend res.status res.message, true)

/-! ## Chat-transfer helper (hasTaskControl) -/

/-- `TransferMeta.mode`. -/
inductive TransferMode
  | cold
  | warm
deriving Repr, DecidableEq

/-- `TransferMeta.transferStatus`. -/
inductive TransferStatus
  | transferring
  | accepted
  | rejected
deriving Repr, DecidableEq

/-- The `TransferMeta` attribute object. -/
structure TransferMeta where
  mode : TransferMode
  transferStatus : TransferStatus
  sidWithTaskControl : String
deriving Repr, DecidableEq

/-- `transferTargetType`. -/
inductive TransferTargetType
  | worker
  | queue
deriving Repr, DecidableEq

/-- `ChatTransferTaskAttributes`: both fields optional. -/
structure ChatTransferTaskAttributes where
  transferMeta : Option TransferMeta
  transferTargetType : Option TransferTargetType
deriving Repr

/-- The fields of the fetched TaskRouter task that `hasTaskControl` reads. -/
structure TaskInstance where
  sid : String
deriving Repr, DecidableEq

/-- `hasTransferStarted(taskAttributes)`: truthiness of
`taskAttributes.transferMeta` (the attributes object itself always exists in
the embedding, so the `taskAttributes &&` guard is vacuous). -/
def hasTransferStarted (taskAttributes : ChatTransferTaskAttributes) : Bool :=
  taskAttributes.transferMeta.isSome

/-- `hasTaskControl(client, workspaceSid, taskSid, taskAttributes)`: `true`
when no transfer has started; otherwise fetch the task for `taskSid` and
compare `transferMeta?.sidWithTaskControl` with `task.sid`. The fetch
`client.taskrouter.v1.workspaces.get(workspaceSid).tasks.get(taskSid).fetch()`
is the oracle `fetchTask`. -/
def hasTaskControl (fetchTask : String → String → TaskInstance)
    (workspaceSid taskSid : String)
    (taskAttributes : ChatTransferTaskAttributes) : Bool :=
  if ¬ hasTransferStarted taskAttributes then
    true
  else
    let task := fetchTask workspaceSid taskSid
    match taskAttributes.transferMeta with
    | some meta => meta.sidWithTaskControl = task.sid
    | none => false

/-! ## sendErrorMessageForUnsupportedMedia
(src/functions/helpers/sendErrorMessageForUnsupportedMedia.private.ts) -/

/-- JS truthiness of an optional string: `undefined` and the empty string
are falsy. -/
def jsTruthyStr (s : Option String) : Bool :=
  match s with
  | none => false
  | some s => s ≠ ""

/-- The `onMessageAdded` event fields the helper reads. `Body` is an
optional string; `Media` is an optional record (any object, even an empty
one, is JS-truthy, so only its presence matters). -/
structure MsgEvent where
  body : Option String
  media : Option (List (String × String))
  conversationSid : String

/-- A message created through
`conversations.get(sid).messages.create({ body, author, ... })`. -/
structure SentMessage where
  conversationSid : String
  author : String
  messageText : String
deriving Repr, DecidableEq

/-- Environment of `sendErrorMessageForUnsupportedMedia`:
`helplineLanguage` is `serviceConfig.attributes.helplineLanguage` with
`none` for `undefined`/`null` (the source applies `?? 'en-US'` to it), and
`translationFetch lang` is the `fetch` of
`/translations/{lang}/messages.json` followed by `.json()` and extraction of
the `UnsupportedMediaErrorMsg` key: `Except.error` when any of that throws,
`Except.ok none` when the key is absent, `Except.ok (some v)` otherwise. -/
structure MediaEnv where
  helplineLanguage : Option String
  translationFetch : String → Except String (Option String)

/-- `FALLBACK_ERROR_MESSAGE` from the source. -/
def FALLBACK_ERROR_MESSAGE : String := "Unsupported message type."

/-- `sendErrorMessageForUnsupportedMedia(context, event)`: when the event
has neither a truthy `Body` nor a truthy `Media`, fetch the Flex service
configuration, try to translate the error message (falling back on throw or
an untruthy translation), and send the message via
`sendConversationMessage`. Returns the number of Twilio API calls made (the
flexApi configuration fetch and the message create) and the list of sent
messages. -/
def sendErrorMessageForUnsupportedMedia (env : MediaEnv) (ev : MsgEvent) :
    Nat × List SentMessage :=
  if ¬ jsTruthyStr ev.body ∧ ¬ ev.media.isSome then
    let helplineLanguage := env.helplineLanguage.getD "en-US"
    let messageText :=
      if helplineLanguage ≠ "" then
        match env.translationFetch helplineLanguage with
        | Except.ok translatedMessage =>
          if jsTruthyStr translatedMessage then translatedMessage.getD ""
          else FALLBACK_ERROR_MESSAGE
        | Except.error _ => FALLBACK_ERROR_MESSAGE
      else FALLBACK_ERROR_MESSAGE
    (2, [{ conversationSid := ev.conversationSid, author := "Bot", messageText := messageText }])
  else
    (0, [])

/-! ## Byte-level primitives: UTF-8, SHA-256, HMAC, hex, encodeURIComponent

`saveContactToSaferNet.ts` signs `encodeURIComponent(payload)` with
`crypto.createHmac('sha256', SAFERNET_TOKEN)...digest('hex')`. These Node
built-ins are reimplemented here over `List Nat` bytes (each < 256),
following FIPS 180-4 / RFC 2104 and the ECMAScript `encodeURIComponent`
algorithm, so that the signature claim is about a real digest. -/

/-- Truncation to 32 bits. -/
def w32 (n : Nat) : Nat := n % 4294967296

/-- Right rotation within 32 bits. -/
def rotr32 (k n : Nat) : Nat := w32 ((n >>> k) ||| (n <<< (32 - k)))

/-- Big-endian byte encoding of `v`, `k` bytes wide. -/
def beBytes : Nat → Nat → List Nat
  | 0, _ => []
  | Nat.succ k, v => beBytes k (v / 256) ++ [v % 256]

/-- Group bytes into big-endian 32-bit words (four bytes per word). -/
def bytesToWords : List Nat → List Nat
  | b0 :: b1 :: b2 :: b3 :: rest =>
    (((b0 * 256 + b1) * 256 + b2) * 256 + b3) :: bytesToWords rest
  | _ => []

/-- SHA-256 round constants. -/
def sha256K : List Nat :=
  [1116352408, 1899447441, 3049323471, 3921009573, 961987163, 1508970993,
   2453635748, 2870763221, 3624381080, 310598401, 607225278, 1426881987,
   1925078388, 2162078206, 2614888103, 3248222580, 3835390401, 4022224774,
   264347078, 604807628, 770255983, 1249150122, 1555081692, 1996064986,
   2554220882, 2821834349, 2952996808, 3210313671, 3336571891, 3584528711,
   113926993, 338241895, 666307205, 773529912, 1294757372, 1396182291,
   1695183700, 1986661051, 2177026350, 2456956037, 2730485921, 2820302411,
   3259730800, 3345764771, 3516065817, 3600352804, 4094571909, 275423344,
   430227734, 506948616, 659060556, 883997877, 958139571, 1322822218,
   1537002063, 1747873779, 1955562222, 2024104815, 2227730452, 2361852424,
   2428436474, 2756734187, 3204031479, 3329325298]

/-- SHA-256 initial hash value. -/
def sha256H0 : List Nat :=
  [1779033703, 3144134277, 1013904242, 2773480762,
   1359893119, 2600822924, 528734635, 1541459225]

/-- Message-schedule function σ₀. -/
def smallSigma0 (x : Nat) : Nat := (rotr32 7 x) ^^^ (rotr32 18 x) ^^^ (x >>> 3)

/-- Message-schedule function σ₁. -/
def smallSigma1 (x : Nat) : Nat := (rotr32 17 x) ^^^ (rotr32 19 x) ^^^ (x >>> 10)

/-- Compression function Σ₀. -/
def bigSigma0 (x : Nat) : Nat := (rotr32 2 x) ^^^ (rotr32 13 x) ^^^ (rotr32 22 x)

/-- Compression function Σ₁. -/
def bigSigma1 (x : Nat) : Nat := (rotr32 6 x) ^^^ (rotr32 11 x) ^^^ (rotr32 25 x)

/-- Ch(x, y, z), with ¬x taken inside 32 bits. -/
def ch32 (x y z : Nat) : Nat := (x &&& y) ^^^ ((x ^^^ 0xffffffff) &&& z)

/-- Maj(x, y, z). -/
def maj32 (x y z : Nat) : Nat := (x &&& y) ^^^ (x &&& z) ^^^ (y &&& z)

/-- Extend a message schedule by `k` further words: each new word is
`σ₁(W[i−2]) + W[i−7] + σ₀(W[i−15]) + W[i−16]` mod 2³². -/
def extendSchedule : Nat → List Nat → List Nat
  | 0, acc => acc
  | Nat.succ k, acc =>
    let n := acc.length
    let wi := w32 (smallSigma1 (acc.getD (n - 2) 0) + acc.getD (n - 7) 0 +
      smallSigma0 (acc.getD (n - 15) 0) + acc.getD (n - 16) 0)
    extendSchedule k (acc ++ [wi])

/-- One SHA-256 compression round on the eight working registers. -/
def compressRound (st : List Nat) (kw : Nat × Nat) : List Nat :=
  match st with
  | [a, b, c, d, e, f, g, h] =>
    let t1 := w32 (h + bigSigma1 e + ch32 e f g + kw.1 + kw.2)
    let t2 := w32 (bigSigma0 a + maj32 a b c)
    [w32 (t1 + t2), a, b, c, w32 (d + t1), e, f, g]
  | _ => st

/-- Process one 64-byte block: build the schedule, run the 64 rounds, add
the result into the running hash. -/
def processBlock (H : List Nat) (block : List Nat) : List Nat :=
  let W := extendSchedule 48 (bytesToWords block)
  let st := (sha256K.zip W).foldl compressRound H
  (H.zip st).map (fun p => w32 (p.1 + p.2))

/-- Process the padded message 64 bytes at a time. -/
def processBlocks : List Nat → List Nat → List Nat
  | H, [] => H
  | H, b :: rest =>
    processBlocks (processBlock H ((b :: rest).take 64)) ((b :: rest).drop 64)
termination_by _ l => l.length
decreasing_by simp [List.length_drop]; omega

/-- SHA-256 padding: append `0x80`, zeros to 56 mod 64, then the bit length
as a 64-bit big-endian integer. -/
def sha256Pad (msg : List Nat) : List Nat :=
  let L := msg.length
  msg ++ [0x80] ++ List.replicate ((64 - ((L + 9) % 64)) % 64) 0 ++ beBytes 8 (8 * L)

/-- SHA-256 of a byte list, as a 32-byte list. -/
def sha256 (msg : List Nat) : List Nat :=
  ((processBlocks sha256H0 (sha256Pad msg)).map (beBytes 4)).flatten

/-- HMAC-SHA-256 (RFC 2104): hash over-long keys, zero-pad to the 64-byte
block size, then `H((K ⊕ opad) ∥ H((K ⊕ ipad) ∥ msg))`. -/
def hmacSha256 (key msg : List Nat) : List Nat :=
  let k0 := if 64 < key.length then sha256 key else key
  let kPad := k0 ++ List.replicate (64 - k0.length) 0
  let ipadded := kPad.map (fun b => b ^^^ 0x36)
  let opadded := kPad.map (fun b => b ^^^ 0x5c)
  sha256 (opadded ++ sha256 (ipadded ++ msg))

/-- The sixteen lowercase hex digits. -/
def hexDigitsLower : List Char :=
  "0123456789abcdef".data

/-- The sixteen uppercase hex digits (percent-encoding uses uppercase). -/
def hexDigitsUpper : List Char :=
  "0123456789ABCDEF".data

/-- Two lowercase hex digits of a byte. -/
def byteToHexLower (b : Nat) : List Char :=
  [hexDigitsLower.getD (b / 16 % 16) '0', hexDigitsLower.getD (b % 16) '0']

/-- Lowercase hex string of a byte list — `digest('hex')` in Node. -/
def toHexLower (bs : List Nat) : String :=
  String.mk ((bs.map byteToHexLower).flatten)

/-- UTF-8 encoding of one Unicode scalar value. -/
def utf8EncodeChar (c : Char) : List Nat :=
  let v := c.toNat
  if v < 0x80 then [v]
  else if v < 0x800 then
    [0xc0 ||| (v >>> 6), 0x80 ||| (v &&& 0x3f)]
  else if v < 0x10000 then
    [0xe0 ||| (v >>> 12), 0x80 ||| ((v >>> 6) &&& 0x3f), 0x80 ||| (v &&& 0x3f)]
  else
    [0xf0 ||| (v >>> 18), 0x80 ||| ((v >>> 12) &&& 0x3f),
     0x80 ||| ((v >>> 6) &&& 0x3f), 0x80 ||| (v &&& 0x3f)]

/-- UTF-8 bytes of a string — what Node's `Hmac.update` hashes for string
input. -/
def strBytes (s : String) : List Nat :=
  (s.data.map utf8EncodeChar).flatten

/-- `crypto.createHmac('sha256', key).update(msg).digest('hex')` for string
key and message. -/
def hmacSha256Hex (key msg : String) : String :=
  toHexLower (hmacSha256 (strBytes key) (strBytes msg))

/-- The `uriUnescaped` character set of ECMAScript `encodeURIComponent`:
ASCII letters, digits, and `- _ . ! ~ * ' ( )` (listed by code point). -/
def uriUnescaped (c : Char) : Bool :=
  c.isAlpha || c.isDigit || [45, 95, 46, 33, 126, 42, 39, 40, 41].contains c.toNat

/-- Percent-encode one byte with uppercase hex digits. -/
def percentByte (b : Nat) : List Char :=
  ['%', hexDigitsUpper.getD (b / 16 % 16) '0', hexDigitsUpper.getD (b % 16) '0']

/-- ECMAScript `encodeURIComponent`: unescaped characters pass through, all
others are percent-encoded per UTF-8 byte. -/
def encodeURIComponent (s : String) : String :=
  String.mk ((s.data.map (fun c =>
    if uriUnescaped c then [c] else ((utf8EncodeChar c).map percentByte).flatten)).flatten)

/-! ## saveContactToSaferNet (src/functions/saveContactToSaferNet.ts) -/

/-- A JSON value, the result type of `JSON.parse`. -/
inductive JsonVal
  | str (s : String)
  | num (n : Int)
  | bool (b : Bool)
  | null
  | arr (xs : List JsonVal)
  | obj (fields : List (String × JsonVal))

/-- The request body of `saveContactToSaferNet`. -/
structure SaveBody where
  payload : String
  token : Option String
  apiKey : Option String

/-- The fields of the SaferNet response body the handler reads: `success`
is recorded by its truthiness; `post_survey_link` and `error_message` by
value. -/
structure SaferNetData where
  success : Bool
  post_survey_link : String
  error_message : String

/-- The axios request the handler issues: url, method, parsed body, and the
two headers it sets. -/
structure SaferNetRequest where
  url : String
  method : String
  data : JsonVal
  contentType : String
  xSignature : String

/-- Environment of `saveContactToSaferNet`: its environment variables and
oracles for the external calls — `validateTokenOk t` is whether
`validateToken(t, ACCOUNT_SID, AUTH_TOKEN)` resolves, `jsonParse` is
`JSON.parse` (`Except.error` for a throw), and `saferNet` is the axios POST
(`Except.error` for a thrown request error). -/
structure SaveContactEnv where
  ACCOUNT_SID : String
  AUTH_TOKEN : String
  SAVE_PENDING_CONTACTS_STATIC_KEY : String
  SAFERNET_ENDPOINT : String
  SAFERNET_TOKEN : String
  validateTokenOk : String → Bool
  jsonParse : String → Except String JsonVal
  saferNet : SaferNetRequest → Except String SaferNetData

/-- `isValidRequest(context, event)`: a truthy `Token` is checked with the
token validator (a throw yields `false`); otherwise a truthy `ApiKey` must
equal `SAVE_PENDING_CONTACTS_STATIC_KEY`; otherwise `false`. -/
def isValidRequest (env : SaveContactEnv) (ev : SaveBody) : Bool :=
  if jsTruthyStr ev.token then
    env.validateTokenOk (ev.token.getD "")
  else if jsTruthyStr ev.apiKey then
    ev.apiKey.getD "" = env.SAVE_PENDING_CONTACTS_STATIC_KEY
  else
    false

/-- What the `saveContactToSaferNet` handler does: throw out of the handler
on a missing environment variable, or resolve exactly one of `error403`,
`success(link)`, `error500(err)`. -/
inductive SaveOutcome
  | envThrow (msg : String)
  | resolvedError403 (msg : String)
  | resolvedSuccess (link : String)
  | resolvedError500 (err : String)

/-- The exported `handler` of `saveContactToSaferNet.ts`: check the three
environment variables (JS-falsy check, throwing on failure), validate the
request, then inside `try` sign `encodeURIComponent(payload)` with
HMAC-SHA-256 keyed by `SAFERNET_TOKEN`, POST `JSON.parse(payload)` with the
`X-Signature` header, and branch on `response.data.success`. Returns the
resolved outcome and the request issued to SaferNet (`none` when no request
was made). -/
def saveContactHandler (env : SaveContactEnv) (ev : SaveBody) :
    SaveOutcome × Option SaferNetRequest :=
  if env.SAFERNET_ENDPOINT = "" then
    (SaveOutcome.envThrow "SAFERNET_ENDPOINT env var not provided.", none)
  else if env.SAFERNET_TOKEN = "" then
    (SaveOutcome.envThrow "SAFERNET_TOKEN env var not provided.", none)
  else if env.SAVE_PENDING_CONTACTS_STATIC_KEY = "" then
    (SaveOutcome.envThrow "SAVE_PENDING_CONTACTS_STATIC_KEY env var not provided.", none)
  else if ¬ isValidRequest env ev then
    (SaveOutcome.resolvedError403 "No AccessToken or ApiKey was found", none)
  else
    let signedPayload := hmacSha256Hex env.SAFERNET_TOKEN (encodeURIComponent ev.payload)
    match env.jsonParse ev.payload with
    | Except.error err => (SaveOutcome.resolvedError500 err, none)
    | Except.ok data =>
      let req : SaferNetRequest :=
        { url := env.SAFERNET_ENDPOINT
          method := "POST"
          data := data
          contentType := "application/json"
          xSignature := "sha256=" ++ signedPayload }
      match env.saferNet req with
      | Except.error err => (SaveOutcome.resolvedError500 err, some req)
      | Except.ok d =>
        if d.success then
          (SaveOutcome.resolvedSuccess d.post_survey_link, some req)
        else
          (SaveOutcome.resolvedError500 d.error_message, some req)

/-! ## Claims about adjustChatCapacity -/

/-- C2: with adjustment `increase`, `adjustChatCapacity` returns 412
"Still have available capacity, no need to increase." without updating the
channel when `availableCapacityPercentage > 0`; returns 412 "Reached the max
capacity." without updating when capacity is exhausted and
`configuredCapacity ≥ maxMessageCapacity`; and otherwise updates the channel
capacity to `configuredCapacity + 1` and returns 200. -/
theorem adjust_increase_spec (env : AdjustEnv) (workerSid : String) (fuel : Nat)
    (ch : WorkerChannel) (m : Int)
    (hw : env.workerFound = true)
    (hm : env.maxMessageCapacity = some m) (hm0 : m ≠ 0)
    (hch : env.channels.find? (fun c => c.taskChannelUniqueName = "chat") = some ch) :
    (ch.availableCapacityPercentage > 0 →
      adjustChatCapacity env workerSid Adjustment.increase fuel =
        some (⟨412, "Still have available capacity, no need to increase."⟩, [])) ∧
    (ch.availableCapacityPercentage ≤ 0 → m ≤ ch.configuredCapacity →
      adjustChatCapacity env workerSid Adjustment.increase fuel =
        some (⟨412, "Reached the max capacity."⟩, [])) ∧
    (ch.availableCapacityPercentage ≤ 0 → ch.configuredCapacity < m →
      adjustChatCapacity env workerSid Adjustment.increase fuel =
        some (⟨200, "Successfully increased channel capacity"⟩,
              [ch.configuredCapacity + 1])) := by
  refine ⟨fun hav => ?_, fun hav hcap => ?_, fun hav hcap => ?_⟩
  · simp [adjustChatCapacity, increaseChatCapacity, hw, hm, hm0, hch, hav]
  · simp [adjustChatCapacity, increaseChatCapacity, hw, hm, hm0, hch,
      show ¬ (ch.availableCapacityPercentage > 0) from by omega,
      show ¬ (ch.configuredCapacity < m) from by omega]
  · simp [adjustChatCapacity, increaseChatCapacity, hw, hm, hm0, hch, hcap,
      show ¬ (ch.availableCapacityPercentage > 0) from by omega]

/-- C2 witness: a concrete channel with free capacity yields the first 412. -/
theorem adjust_increase_spec_witness :
    adjustChatCapacity
      { workerFound := true, maxMessageCapacity := some 5,
        channels := [⟨2, 50, "chat"⟩], update := fun c _ => c }
      "WK1" Adjustment.increase 0 =
      some (⟨412, "Still have available capacity, no need to increase."⟩, []) :=
  (adjust_increase_spec
    { workerFound := true, maxMessageCapacity := some 5,
      channels := [⟨2, 50, "chat"⟩], update := fun c _ => c }
    "WK1" 0 ⟨2, 50, "chat"⟩ 5 rfl rfl (by decide) rfl).1 (by decide)

/-- C5: with adjustment `setTo1`, a channel whose configured capacity is not
1 is updated to `configuredCapacity - 1` (a single decrement) with 200
"Successfully reset channel capacity to 1"; a channel already at capacity 1
is not updated and 200 "Channel capacity already 1, no adjustment made." is
returned. -/
theorem adjust_setTo1_spec (env : AdjustEnv) (workerSid : String) (fuel : Nat)
    (ch : WorkerChannel) (m : Int)
    (hw : env.workerFound = true)
    (hm : env.maxMessageCapacity = some m) (hm0 : m ≠ 0)
    (hch : env.channels.find? (fun c => c.taskChannelUniqueName = "chat") = some ch) :
    (ch.configuredCapacity ≠ 1 →
      adjustChatCapacity env workerSid Adjustment.setTo1 fuel =
        some (⟨200, "Successfully reset channel capacity to 1"⟩,
              [ch.configuredCapacity - 1])) ∧
    (ch.configuredCapacity = 1 →
      adjustChatCapacity env workerSid Adjustment.setTo1 fuel =
        some (⟨200, "Channel capacity already 1, no adjustment made."⟩, [])) := by
  refine ⟨fun h1 => ?_, fun h1 => ?_⟩ <;>
    simp [adjustChatCapacity, hw, hm, hm0, hch, h1]

/-- C5 witness: capacity 3 is decremented to 2, not set to 1. -/
theorem adjust_setTo1_spec_witness :
    adjustChatCapacity
      { workerFound := true, maxMessageCapacity := some 5,
        channels := [⟨3, 0, "chat"⟩], update := fun c _ => c }
      "WK1" Adjustment.setTo1 0 =
      some (⟨200, "Successfully reset channel capacity to 1"⟩, [2]) :=
  (adjust_setTo1_spec
    { workerFound := true, maxMessageCapacity := some 5,
      channels := [⟨3, 0, "chat"⟩], update := fun c _ => c }
    "WK1" 0 ⟨3, 0, "chat"⟩ 5 rfl rfl (by decide) rfl).1 (by decide)

/-- C9: with adjustment `decrease`, the update to `configuredCapacity - 1`
is performed only when `configuredCapacity - 1 ≥ 1`, no update is performed
otherwise, both cases return 200 "Successfully decreased channel capacity",
and under the update oracle's postcondition a capacity that is ≥ 1 stays
≥ 1 after every performed update. -/
theorem adjust_decrease_spec (env : AdjustEnv) (workerSid : String) (fuel : Nat)
    (ch : WorkerChannel) (m : Int)
    (hupd : ∀ c n, (env.update c n).configuredCapacity = n)
    (hw : env.workerFound = true)
    (hm : env.maxMessageCapacity = some m) (hm0 : m ≠ 0)
    (hch : env.channels.find? (fun c => c.taskChannelUniqueName = "chat") = some ch) :
    (ch.configuredCapacity - 1 ≥ 1 →
      adjustChatCapacity env workerSid Adjustment.decrease fuel =
        some (⟨200, "Successfully decreased channel capacity"⟩,
              [ch.configuredCapacity - 1])) ∧
    (ch.configuredCapacity - 1 < 1 →
      adjustChatCapacity env workerSid Adjustment.decrease fuel =
        some (⟨200, "Successfully decreased channel capacity"⟩, [])) ∧
    (ch.configuredCapacity ≥ 1 →
      ∀ calls res, adjustChatCapacity env workerSid Adjustment.decrease fuel = some (res, calls) →
        ∀ u ∈ calls, (env.update ch u).configuredCapacity ≥ 1) := by
  refine ⟨fun h1 => ?_, fun h1 => ?_, fun h1 calls res hres u hu => ?_⟩
  · simp [adjustChatCapacity, hw, hm, hm0, hch, h1]
  · simp [adjustChatCapacity, hw, hm, hm0, hch,
      show ¬ (ch.configuredCapacity - 1 ≥ 1) from by omega]
  · by_cases hcap : ch.configuredCapacity - 1 ≥ 1
    · simp [adjustChatCapacity, hw, hm, hm0, hch, hcap] at hres
      rw [hupd]
      rcases hres with ⟨-, rfl⟩
      simp at hu
      omega
    · simp [adjustChatCapacity, hw, hm, hm0, hch, hcap] at hres
      rcases hres with ⟨-, rfl⟩
      simp at hu

/-- C9 witness: capacity 2 is decreased once to 1 and stays ≥ 1. -/
theorem adjust_decrease_spec_witness :
    adjustChatCapacity
      { workerFound := true, maxMessageCapacity := some 5,
        channels := [⟨2, 0, "chat"⟩],
        update := fun c n => ⟨n, c.availableCapacityPercentage, c.taskChannelUniqueName⟩ }
      "WK1" Adjustment.decrease 0 =
      some (⟨200, "Successfully decreased channel capacity"⟩, [1]) :=
  (adjust_decrease_spec
    { workerFound := true, maxMessageCapacity := some 5,
      channels := [⟨2, 0, "chat"⟩],
      update := fun c n => ⟨n, c.availableCapacityPercentage, c.taskChannelUniqueName⟩ }
    "WK1" 0 ⟨2, 0, "chat"⟩ 5 (fun _ _ => rfl) rfl rfl (by decide) rfl).1 (by decide)

/-- C3: `hasTaskControl` is `true` whenever the attributes have no
`transferMeta`; when `transferMeta` is present it is `true` iff
`transferMeta.sidWithTaskControl` equals the sid of the task fetched for the
given `taskSid`. -/
theorem hasTaskControl_spec (fetchTask : String → String → TaskInstance)
    (workspaceSid taskSid : String) (a : ChatTransferTaskAttributes) :
    (a.transferMeta = none →
      hasTaskControl fetchTask workspaceSid taskSid a = true) ∧
    (∀ meta, a.transferMeta = some meta →
      (hasTaskControl fetchTask workspaceSid taskSid a = true ↔
        meta.sidWithTaskControl = (fetchTask workspaceSid taskSid).sid)) := by
  constructor
  · intro h
    simp [hasTaskControl, hasTransferStarted, h]
  · intro meta h
    simp [hasTaskControl, hasTransferStarted, h]

/-- C3 witness: no transfer started means the worker keeps task control. -/
theorem hasTaskControl_spec_witness :
    hasTaskControl (fun _ _ => ⟨"WT123"⟩) "WS1" "WT999" ⟨none, none⟩ = true :=
  (hasTaskControl_spec (fun _ _ => ⟨"WT123"⟩) "WS1" "WT999" ⟨none, none⟩).1 rfl

/-- C8: the `adjustChatCapacity` handler resolves `error400('workerSid')`
when `workerSid` is `undefined` and otherwise `error400('adjustment')` when
`adjustment` is `undefined`, in both cases without invoking
`adjustChatCapacity` (which performs all of the handler's Twilio API calls);
only when both fields are present does it invoke `adjustChatCapacity` and
resolve its status/message pair. -/
theorem adjustHandler_validation (env : AdjustEnv) (fuel : Nat) (ev : AdjustEvent) :
    (ev.workerSid = none →
      adjustHandler env fuel ev = some (AdjustOutcome.resolvedError400 "workerSid", false)) ∧
    (∀ w, ev.workerSid = some w → ev.adjustment = none →
      adjustHandler env fuel ev = some (AdjustOutcome.resolvedError400 "adjustment", false)) ∧
    (∀ w a, ev.workerSid = some w → ev.adjustment = some a →
      ∀ res calls, adjustChatCapacity env w a fuel = some (res, calls) →
        adjustHandler env fuel ev =
          some (AdjustOutcome.resolvedSend res.status res.message, true)) := by
  refine ⟨fun hw => ?_, fun w hw ha => ?_, fun w a hw ha res calls hres => ?_⟩
  · simp [adjustHandler, hw]
  · simp [adjustHandler, hw, ha]
  · simp [adjustHandler, hw, ha, hres]

/-- C8 witness: a request without `workerSid` is rejected with
`error400('workerSid')` and no Twilio call. -/
theorem adjustHandler_validation_witness :
    adjustHandler
      { workerFound := true, maxMessageCapacity := some 5,
        channels := [], update := fun c _ => c }
      0 ⟨none, some Adjustment.increase⟩ =
      some (AdjustOutcome.resolvedError400 "workerSid", false) :=
  (adjustHandler_validation
    { workerFound := true, maxMessageCapacity := some 5,
      channels := [], update := fun c _ => c }
    0 ⟨none, some Adjustment.increase⟩).1 rfl

/-! ## Claims about sendErrorMessageForUnsupportedMedia -/

/-- C6: for an `onMessageAdded` event with a truthy `Body` or a truthy
`Media`, the helper makes no Twilio API call and sends no conversation
message; it sends an error message only when `Body` is absent or empty and
`Media` is absent. -/
theorem sendError_frame (env : MediaEnv) (ev : MsgEvent) :
    (jsTruthyStr ev.body = true ∨ ev.media.isSome = true →
      sendErrorMessageForUnsupportedMedia env ev = (0, [])) ∧
    ((sendErrorMessageForUnsupportedMedia env ev).2 ≠ [] →
      (ev.body = none ∨ ev.body = some "") ∧ ev.media = none) := by
  constructor
  · intro h
    rcases h with h | h <;>
      simp [sendErrorMessageForUnsupportedMedia, h]
  · intro h
    by_cases hb : jsTruthyStr ev.body
    · simp [sendErrorMessageForUnsupportedMedia, hb] at h
    · by_cases hm : ev.media.isSome
      · simp [sendErrorMessageForUnsupportedMedia, hm] at h
      · refine ⟨?_, Option.not_isSome_iff_eq_none.mp hm⟩
        cases hbody : ev.body with
        | none => exact Or.inl rfl
        | some s =>
          right
          simp [jsTruthyStr, hbody] at hb
          rw [hb]

/-- C6 witness: a message with a text body triggers no call and no
message. -/
theorem sendError_frame_witness :
    sendErrorMessageForUnsupportedMedia
      ⟨some "en-US", fun _ => Except.ok none⟩
      ⟨some "hello", none, "CH123"⟩ = (0, []) :=
  (sendError_frame ⟨some "en-US", fun _ => Except.ok none⟩
    ⟨some "hello", none, "CH123"⟩).1 (Or.inl (by decide))

/-- C10: whenever the helper sends a message its text is nonempty: it is
the translated `UnsupportedMediaErrorMsg` value when the translation fetch
succeeds with a truthy value, and the fallback "Unsupported message type."
in every other case — a fetch that succeeds with an untruthy translation
(absent key or empty string), a fetch that throws (the failure is caught
and the message is still sent), and an untruthy helpline language, where no
fetch is attempted. -/
theorem sendError_messageText (env : MediaEnv) (ev : MsgEvent)
    (hb : jsTruthyStr ev.body = false) (hm : ev.media = none) :
    ∃ text,
      (sendErrorMessageForUnsupportedMedia env ev).2 =
        [⟨ev.conversationSid, "Bot", text⟩] ∧
      text ≠ "" ∧
      (env.helplineLanguage.getD "en-US" ≠ "" →
        ∀ t, env.translationFetch (env.helplineLanguage.getD "en-US") = Except.ok (some t) →
          t ≠ "" → text = t) ∧
      (env.helplineLanguage.getD "en-US" ≠ "" →
        ∀ tr, env.translationFetch (env.helplineLanguage.getD "en-US") = Except.ok tr →
          jsTruthyStr tr = false → text = FALLBACK_ERROR_MESSAGE) ∧
      (∀ e, env.translationFetch (env.helplineLanguage.getD "en-US") = Except.error e →
        text = FALLBACK_ERROR_MESSAGE) ∧
      (env.helplineLanguage.getD "en-US" = "" → text = FALLBACK_ERROR_MESSAGE) := by
  by_cases hl : env.helplineLanguage.getD "en-US" = ""
  · refine ⟨FALLBACK_ERROR_MESSAGE, ?_, by decide, ?_, ?_, fun _ _ => rfl, fun _ => rfl⟩
    · simp [sendErrorMessageForUnsupportedMedia, hb, hm, hl]
    · intro hne t _ _
      exact absurd hl hne
    · intro hne tr _ _
      exact absurd hl hne
  · cases hf : env.translationFetch (env.helplineLanguage.getD "en-US") with
    | error e =>
      refine ⟨FALLBACK_ERROR_MESSAGE, ?_, by decide, ?_, ?_, fun _ _ => rfl, fun _ => rfl⟩
      · simp [sendErrorMessageForUnsupportedMedia, hb, hm, hl, hf]
      · intro _ t ht _
        simp at ht
      · intro _ tr htr _
        simp at htr
    | ok tr =>
      by_cases htr : jsTruthyStr tr = true
      · refine ⟨tr.getD "", ?_, ?_, ?_, ?_, ?_, ?_⟩
        · simp [sendErrorMessageForUnsupportedMedia, hb, hm, hl, hf, htr]
        · cases tr with
          | none => simp [jsTruthyStr] at htr
          | some s => simpa [jsTruthyStr] using htr
        · intro _ t ht _
          simp at ht
          rw [ht]
          rfl
        · intro _ tr' htr' hfalse
          simp at htr'
          rw [← htr'] at hfalse
          rw [htr] at hfalse
          cases hfalse
        · intro e he
          simp at he
        · intro h
          exact absurd h hl
      · refine ⟨FALLBACK_ERROR_MESSAGE, ?_, by decide, ?_, ?_, ?_, fun _ => rfl⟩
        · simp [sendErrorMessageForUnsupportedMedia, hb, hm, hl, hf, htr]
        · intro _ t ht htt
          simp at ht
          rw [ht] at htr
          simp [jsTruthyStr, htt] at htr
        · intro _ tr' _ _
          rfl
        · intro e he
          simp at he

/-- C10 witness: with a failing translation fetch, the fallback error
message is still sent and is nonempty; with a successful fetch of an empty
translation, the fallback is also used. -/
theorem sendError_messageText_witness :
    (∃ text,
      (sendErrorMessageForUnsupportedMedia
        ⟨some "pt-BR", fun _ => Except.error "network down"⟩
        ⟨none, none, "CH123"⟩).2 = [⟨"CH123", "Bot", text⟩] ∧
      text ≠ "" ∧
      text = FALLBACK_ERROR_MESSAGE) ∧
    (∃ text,
      (sendErrorMessageForUnsupportedMedia
        ⟨some "pt-BR", fun _ => Except.ok (some "")⟩
        ⟨none, none, "CH456"⟩).2 = [⟨"CH456", "Bot", text⟩] ∧
      text = FALLBACK_ERROR_MESSAGE) := by
  constructor
  · obtain ⟨text, hsent, hne, -, -, hfall, -⟩ :=
      sendError_messageText
        ⟨some "pt-BR", fun _ => Except.error "network down"⟩
        ⟨none, none, "CH123"⟩ rfl rfl
    exact ⟨text, hsent, hne, hfall "network down" rfl⟩
  · obtain ⟨text, hsent, -, -, hfalsy, -, -⟩ :=
      sendError_messageText
        ⟨some "pt-BR", fun _ => Except.ok (some "")⟩
        ⟨none, none, "CH456"⟩ rfl rfl
    exact ⟨text, hsent, hfalsy (by decide) (some "") rfl (by decide)⟩

/-- Any fuel strictly above `(max − configuredCapacity).toNat` iterations
suffices for the `increaseUntilCapacityAvailable` loop to exit, provided
`channel.update({ capacity: n })` yields a channel whose configured capacity
is `n`. -/
theorem increaseUntilLoop_isSome (update : WorkerChannel → Int → WorkerChannel)
    (hupd : ∀ c n, (update c n).configuredCapacity = n) (maxMessageCapacity : Int) :
    ∀ fuel ch, (maxMessageCapacity - ch.configuredCapacity).toNat < fuel →
      (increaseUntilLoop update maxMessageCapacity fuel ch).isSome := by
  intro fuel
  induction fuel with
  | zero => intro ch h; omega
  | succ k ih =>
    intro ch h
    by_cases hav : ch.availableCapacityPercentage > 0
    · simp [increaseUntilLoop, increaseChatCapacity, hav]
    · by_cases hcap : ch.configuredCapacity < maxMessageCapacity
      · have hnext :
            (maxMessageCapacity -
              (update ch (ch.configuredCapacity + 1)).configuredCapacity).toNat < k := by
          rw [hupd]
          omega
        have hrec := ih (update ch (ch.configuredCapacity + 1)) hnext
        simp only [increaseUntilLoop, increaseChatCapacity, if_neg hav, if_pos hcap,
          if_neg (by omega : ¬ ¬ ch.configuredCapacity < maxMessageCapacity)]
        simp only [reduceIte]
        cases hloop : increaseUntilLoop update maxMessageCapacity k
            (update ch (ch.configuredCapacity + 1)) with
        | none => rw [hloop] at hrec; simp at hrec
        | some v =>
          obtain ⟨res, fin, calls⟩ := v
          simp
      · simp [increaseUntilLoop, increaseChatCapacity, hav, hcap]

/-- C1: provided `channel.update({ capacity: n })` returns a channel whose
configured capacity is `n`, every iteration of the
`increaseUntilCapacityAvailable` loop either returns a status other than
200 or strictly increases the configured capacity while keeping it bounded
by `maxMessageCapacity`, and the loop terminates: fuel
`(maxMessageCapacity − configuredCapacity).toNat + 1` always suffices. -/
theorem increaseUntil_terminates (update : WorkerChannel → Int → WorkerChannel)
    (hupd : ∀ c n, (update c n).configuredCapacity = n)
    (ch : WorkerChannel) (maxMessageCapacity : Int) :
    ((increaseChatCapacity update ch maxMessageCapacity).result.status = 200 →
      ch.configuredCapacity <
        (increaseChatCapacity update ch maxMessageCapacity).updatedChannel.configuredCapacity ∧
      (increaseChatCapacity update ch maxMessageCapacity).updatedChannel.configuredCapacity ≤
        maxMessageCapacity) ∧
    (increaseUntilLoop update maxMessageCapacity
      ((maxMessageCapacity - ch.configuredCapacity).toNat + 1) ch).isSome := by
  constructor
  · intro h200
    by_cases hav : ch.availableCapacityPercentage > 0
    · simp [increaseChatCapacity, hav] at h200
    · by_cases hcap : ch.configuredCapacity < maxMessageCapacity
      · simp only [increaseChatCapacity, if_neg hav,
          if_neg (by omega : ¬ ¬ ch.configuredCapacity < maxMessageCapacity)]
        rw [hupd]
        omega
      · simp [increaseChatCapacity, hav, hcap] at h200
  · exact increaseUntilLoop_isSome update hupd maxMessageCapacity _ ch (by omega)

/-- C1 witness: a concrete saturated channel two steps below the max; the
loop with the stated fuel exits. -/
theorem increaseUntil_terminates_witness :
    (increaseUntilLoop
      (fun c n => ⟨n, c.availableCapacityPercentage, c.taskChannelUniqueName⟩) 3
      (((3 : Int) - (1 : Int)).toNat + 1) ⟨1, 0, "chat"⟩).isSome :=
  (increaseUntil_terminates
    (fun c n => ⟨n, c.availableCapacityPercentage, c.taskChannelUniqueName⟩)
    (fun _ _ => rfl) ⟨1, 0, "chat"⟩ 3).2

/-! ## Shape of the hex digest -/

/-- `beBytes k` produces exactly `k` bytes. -/
theorem beBytes_length (k : Nat) : ∀ v, (beBytes k v).length = k := by
  induction k with
  | zero => intro v; rfl
  | succ n ih => intro v; simp [beBytes, ih]

/-- A compression round preserves the number of working registers. -/
theorem compressRound_length (st : List Nat) (kw : Nat × Nat) :
    (compressRound st kw).length = st.length := by
  unfold compressRound
  split
  · simp
  · rfl

/-- Folding compression rounds preserves the register count. -/
theorem foldl_compressRound_length (l : List (Nat × Nat)) :
    ∀ st : List Nat, (l.foldl compressRound st).length = st.length := by
  induction l with
  | nil => intro st; rfl
  | cons p r ih => intro st; rw [List.foldl_cons, ih, compressRound_length]

/-- Processing one block preserves the hash-state width. -/
theorem processBlock_length (H block : List Nat) :
    (processBlock H block).length = H.length := by
  simp [processBlock, foldl_compressRound_length]

/-- Processing all blocks preserves the hash-state width. -/
theorem processBlocks_length (H bs : List Nat) :
    (processBlocks H bs).length = H.length := by
  induction H, bs using processBlocks.induct with
  | case1 H => rw [processBlocks]
  | case2 H b rest ih =>
    rw [processBlocks]
    rw [ih, processBlock_length]

/-- Flattening `k`-byte encodings of `l.length` words yields
`k * l.length` bytes. -/
theorem length_flatten_beBytes (k : Nat) (l : List Nat) :
    ((l.map (beBytes k)).flatten).length = k * l.length := by
  induction l with
  | nil => simp
  | cons x xs ih =>
    simp only [List.map_cons, List.flatten_cons, List.length_append, beBytes_length, ih,
      List.length_cons]
    ring

/-- SHA-256 always yields 32 bytes. -/
theorem sha256_length (msg : List Nat) : (sha256 msg).length = 32 := by
  have h8 : (processBlocks sha256H0 (sha256Pad msg)).length = 8 := by
    rw [processBlocks_length]; rfl
  unfold sha256
  rw [length_flatten_beBytes, h8]

/-- Flattened hex pairs: two characters per byte. -/
theorem length_flatten_byteToHexLower (bs : List Nat) :
    ((bs.map byteToHexLower).flatten).length = 2 * bs.length := by
  induction bs with
  | nil => rfl
  | cons b r ih =>
    simp only [List.map_cons, List.flatten_cons, List.length_append, byteToHexLower,
      List.length_cons, List.length_nil, ih]
    omega

/-- The hex rendering of `bs` has `2 * bs.length` characters. -/
theorem toHexLower_length (bs : List Nat) :
    (toHexLower bs).length = 2 * bs.length :=
  length_flatten_byteToHexLower bs

/-- Indexing the lowercase hex alphabet in bounds lands in the alphabet. -/
theorem hexDigitsLower_getD_mem : ∀ i, i < 16 → hexDigitsLower.getD i '0' ∈ hexDigitsLower := by
  decide

/-- Every character of a lowercase hex rendering is a lowercase hex digit. -/
theorem toHexLower_chars (bs : List Nat) :
    ∀ c ∈ (toHexLower bs).data, c ∈ hexDigitsLower := by
  intro c hc
  simp only [toHexLower] at hc
  rw [List.mem_flatten] at hc
  obtain ⟨l, hl, hcl⟩ := hc
  rw [List.mem_map] at hl
  obtain ⟨b, -, rfl⟩ := hl
  simp only [byteToHexLower, List.mem_cons, List.mem_singleton] at hcl
  rcases hcl with rfl | rfl | h
  · exact hexDigitsLower_getD_mem _ (Nat.mod_lt _ (by norm_num))
  · exact hexDigitsLower_getD_mem _ (Nat.mod_lt _ (by norm_num))
  · cases h

/-- The HMAC hex digest is 64 lowercase hex characters. -/
theorem hmacSha256Hex_shape (key msg : String) :
    (hmacSha256Hex key msg).length = 64 ∧
    ∀ c ∈ (hmacSha256Hex key msg).data, c ∈ hexDigitsLower := by
  constructor
  · unfold hmacSha256Hex hmacSha256
    rw [toHexLower_length, sha256_length]
  · exact toHexLower_chars _

/-! ## Claims about saveContactToSaferNet -/

/-- C4: when the request is valid and the payload parses, the handler sends
the SaferNet request with an `X-Signature` header equal to `"sha256="`
followed by the lowercase hex HMAC-SHA-256 digest, keyed with
`SAFERNET_TOKEN`, of `encodeURIComponent(payload)`; the request body is
`JSON.parse(payload)`. The digest really is 64 lowercase hex characters. -/
theorem saveContact_signature (env : SaveContactEnv) (ev : SaveBody) (v : JsonVal)
    (he : env.SAFERNET_ENDPOINT ≠ "") (ht : env.SAFERNET_TOKEN ≠ "")
    (hk : env.SAVE_PENDING_CONTACTS_STATIC_KEY ≠ "")
    (hv : isValidRequest env ev = true)
    (hp : env.jsonParse ev.payload = Except.ok v) :
    ∃ req, (saveContactHandler env ev).2 = some req ∧
      req.xSignature =
        "sha256=" ++ hmacSha256Hex env.SAFERNET_TOKEN (encodeURIComponent ev.payload) ∧
      req.data = v ∧
      req.url = env.SAFERNET_ENDPOINT ∧
      req.method = "POST" ∧
      (hmacSha256Hex env.SAFERNET_TOKEN (encodeURIComponent ev.payload)).length = 64 ∧
      (∀ c ∈ (hmacSha256Hex env.SAFERNET_TOKEN (encodeURIComponent ev.payload)).data,
        c ∈ hexDigitsLower) := by
  have key : (saveContactHandler env ev).2 = some
      { url := env.SAFERNET_ENDPOINT, method := "POST", data := v,
        contentType := "application/json",
        xSignature :=
          "sha256=" ++ hmacSha256Hex env.SAFERNET_TOKEN (encodeURIComponent ev.payload) } := by
    simp only [saveContactHandler, if_neg he, if_neg ht, if_neg hk, hv, Bool.not_true,
      Bool.false_eq_true, if_false, hp]
    cases henv : env.saferNet
        { url := env.SAFERNET_ENDPOINT, method := "POST", data := v,
          contentType := "application/json",
          xSignature :=
            "sha256=" ++ hmacSha256Hex env.SAFERNET_TOKEN (encodeURIComponent ev.payload) } with
    | error e => simp [henv]
    | ok d =>
      by_cases hd : d.success = true <;> simp [henv, hd]
  exact ⟨_, key, rfl, rfl, rfl, rfl, (hmacSha256Hex_shape _ _).1, (hmacSha256Hex_shape _ _).2⟩

/-- C4 witness: concrete environment and payload; the request carries the
signed header and the parsed body. -/
theorem saveContact_signature_witness :
    ∃ req,
      (saveContactHandler
        { ACCOUNT_SID := "AC1", AUTH_TOKEN := "tok",
          SAVE_PENDING_CONTACTS_STATIC_KEY := "k1", SAFERNET_ENDPOINT := "https://sn",
          SAFERNET_TOKEN := "secret", validateTokenOk := fun _ => true,
          jsonParse := fun _ => Except.ok JsonVal.null,
          saferNet := fun _ => Except.ok ⟨true, "link", ""⟩ }
        ⟨"{}", none, some "k1"⟩).2 = some req ∧
      req.xSignature = "sha256=" ++ hmacSha256Hex "secret" (encodeURIComponent "{}") ∧
      req.data = JsonVal.null ∧
      req.url = "https://sn" ∧
      req.method = "POST" ∧
      (hmacSha256Hex "secret" (encodeURIComponent "{}")).length = 64 ∧
      (∀ c ∈ (hmacSha256Hex "secret" (encodeURIComponent "{}")).data,
        c ∈ hexDigitsLower) :=
  saveContact_signature
    { ACCOUNT_SID := "AC1", AUTH_TOKEN := "tok",
      SAVE_PENDING_CONTACTS_STATIC_KEY := "k1", SAFERNET_ENDPOINT := "https://sn",
      SAFERNET_TOKEN := "secret", validateTokenOk := fun _ => true,
      jsonParse := fun _ => Except.ok JsonVal.null,
      saferNet := fun _ => Except.ok ⟨true, "link", ""⟩ }
    ⟨"{}", none, some "k1"⟩ JsonVal.null (by decide) (by decide) (by decide) rfl rfl

/-- C7: for a valid request, a parse failure resolves `error500` with the
thrown error; otherwise the handler issues one request and resolves
`success(post_survey_link)` when `response.data.success` is truthy,
`error500(error_message)` when it is falsy, and `error500` with the thrown
error when the request throws — exactly one outcome per case. -/
theorem saveContact_response (env : SaveContactEnv) (ev : SaveBody)
    (he : env.SAFERNET_ENDPOINT ≠ "") (ht : env.SAFERNET_TOKEN ≠ "")
    (hk : env.SAVE_PENDING_CONTACTS_STATIC_KEY ≠ "")
    (hv : isValidRequest env ev = true) :
    (∀ e, env.jsonParse ev.payload = Except.error e →
      saveContactHandler env ev = (SaveOutcome.resolvedError500 e, none)) ∧
    (∀ v, env.jsonParse ev.payload = Except.ok v →
      ∃ req, (saveContactHandler env ev).2 = some req ∧
        (∀ d, env.saferNet req = Except.ok d →
          (d.success = true →
            saveContactHandler env ev = (SaveOutcome.resolvedSuccess d.post_survey_link, some req)) ∧
          (d.success = false →
            saveContactHandler env ev = (SaveOutcome.resolvedError500 d.error_message, some req))) ∧
        (∀ e, env.saferNet req = Except.error e →
          saveContactHandler env ev = (SaveOutcome.resolvedError500 e, some req))) := by
  constructor
  · intro e hp
    simp [saveContactHandler, he, ht, hk, hv, hp]
  · intro v hp
    refine ⟨⟨env.SAFERNET_ENDPOINT, "POST", v, "application/json",
      "sha256=" ++ hmacSha256Hex env.SAFERNET_TOKEN (encodeURIComponent ev.payload)⟩,
      ?_, ?_, ?_⟩
    · simp only [saveContactHandler, if_neg he, if_neg ht, if_neg hk, hv, Bool.not_true,
        Bool.false_eq_true, if_false, hp]
      cases henv : env.saferNet
          { url := env.SAFERNET_ENDPOINT, method := "POST", data := v,
            contentType := "application/json",
            xSignature :=
              "sha256=" ++ hmacSha256Hex env.SAFERNET_TOKEN (encodeURIComponent ev.payload) } with
      | error e => simp [henv]
      | ok d => by_cases hd : d.success = true <;> simp [henv, hd]
    · intro d hd
      constructor <;> intro hs <;>
        simp [saveContactHandler, he, ht, hk, hv, hp, hd, hs]
    · intro e hreq
      simp [saveContactHandler, he, ht, hk, hv, hp, hreq]

/-- C7 witness: a successful SaferNet response resolves
`success(post_survey_link)`. -/
theorem saveContact_response_witness :
    (saveContactHandler
      { ACCOUNT_SID := "AC1", AUTH_TOKEN := "tok",
        SAVE_PENDING_CONTACTS_STATIC_KEY := "k1", SAFERNET_ENDPOINT := "https://sn",
        SAFERNET_TOKEN := "secret", validateTokenOk := fun _ => true,
        jsonParse := fun _ => Except.ok JsonVal.null,
        saferNet := fun _ => Except.ok ⟨true, "https://survey", ""⟩ }
      ⟨"{}", none, some "k1"⟩).1 = SaveOutcome.resolvedSuccess "https://survey" := by
  obtain ⟨req, hreq, hok, -⟩ :=
    (saveContact_response
      { ACCOUNT_SID := "AC1", AUTH_TOKEN := "tok",
        SAVE_PENDING_CONTACTS_STATIC_KEY := "k1", SAFERNET_ENDPOINT := "https://sn",
        SAFERNET_TOKEN := "secret", validateTokenOk := fun _ => true,
        jsonParse := fun _ => Except.ok JsonVal.null,
        saferNet := fun _ => Except.ok ⟨true, "https://survey", ""⟩ }
      ⟨"{}", none, some "k1"⟩ (by decide) (by decide) (by decide) rfl).2
      JsonVal.null rfl
  rw [(hok ⟨true, "https://survey", ""⟩ rfl).1 rfl]

end ServerlessAI
